import Mathlib

/-!
Verification of the TEASER type-element resolver
(`teaser/data/input/buildingelement_input_json.py`) and the archetype
geometry estimator
(`teaser/logic/archetypebuildings/bmvbs/singlefamilydwelling.py`).

The Python modules are shallowly embedded: JSON records become structures
over `ℚ`/`ℤ`/`String`, Python dicts become association lists (Python dicts
iterate in insertion order), and Python exceptions (`KeyError`,
`ZeroDivisionError`) become the `Except String` monad.
-/

namespace TEASER

/-- A material record of the material database (`mat_bind`). -/
structure Material where
  material_id : String
  name : String
  density : ℚ
  thermal_conduc : ℚ
  heat_capac : ℚ
deriving Repr, DecidableEq

/-- One layer definition of a type-element record: in the JSON this is
`{thickness, material: {material_id}}`; the nested material object is
flattened to its only field. -/
structure LayerIn where
  thickness : ℚ
  material_id : String
deriving Repr, DecidableEq

/-- A type-element record of the element database (`element_bind`).
`inner_radiation`/`inner_convection` are present in every record (the code
reads them unconditionally); the remaining coefficients exist only for some
record categories, so they are `Option` — `none` models an absent JSON key,
whose access raises `KeyError` in Python. `layer` is the ordered mapping
from layer id to layer definition. -/
structure ElementIn where
  building_age_group : ℤ × ℤ
  construction_type : String
  inner_radiation : ℚ
  inner_convection : ℚ
  outer_radiation : Option ℚ
  outer_convection : Option ℚ
  g_value : Option ℚ
  a_conv : Option ℚ
  shading_g_total : Option ℚ
  shading_max_irr : Option ℚ
  layer : List (String × LayerIn)
deriving Repr, DecidableEq

/-- An assembled layer owned by a building element: in the source,
`Layer(element)` attaches the fresh layer to the element's layer list, then
`layer.id`, `layer.thickness` and the material are set. -/
structure Layer where
  id : String
  thickness : ℚ
  material : Material
deriving Repr, DecidableEq

/-- The mutable state of a `BuildingElement` instance that the resolver
touches. `typeName` is Python's `type(element).__name__` (the runtime type
name, e.g. "OuterWall"). Coefficients are `none` while unset. -/
structure BuildingElement where
  typeName : String
  building_age_group : Option (ℤ × ℤ)
  construction_type : Option String
  inner_radiation : Option ℚ
  inner_convection : Option ℚ
  outer_radiation : Option ℚ
  outer_convection : Option ℚ
  g_value : Option ℚ
  a_conv : Option ℚ
  shading_g_total : Option ℚ
  shading_max_irr : Option ℚ
  layers : List Layer
deriving Repr, DecidableEq

/-- The `DataClass` bindings the resolver consumes: the element database
(`element_bind`, iterated in storage order; it may contain the metadata
entry keyed "version", which the category-based scan skips by key, so the
payload stored under "version" is never read) and the material database
(`mat_bind`). -/
structure DataClass where
  element_bind : List (String × ElementIn)
  mat_bind : List Material
deriving Repr, DecidableEq

/-- Modelled from the spec: `load_material_id` of
`teaser.data.input.material_input_json` (that module is not among the given
sources): given a material id and the database, return the material record
carrying conductivity, density, heat capacity and name onto the target
Material instance, failing if the id is absent. -/
def load_material_id (material_id : String) (data_class : DataClass) :
    Except String Material :=
  match data_class.mat_bind.find? (fun m => m.material_id == material_id) with
  | some m => Except.ok m
  | none => Except.error ("material not found: " ++ material_id)

/-- `_set_basic_data` (lines 118-154 of `buildingelement_input_json.py`):
copies age group, technique tag and the two inner coefficients, then
branches on the element's runtime type name: OuterWall/Rooftop/Door
additionally read the two outer coefficients, Window reads the outer
coefficients plus g_value, a_conv and the two shading fields; any other
type reads nothing more. Reading a field the record does not contain
raises `KeyError` naming that field, in the source's read order. -/
def set_basic_data (element : BuildingElement) (element_in : ElementIn) :
    Except String BuildingElement :=
  let el0 : BuildingElement :=
    { element with
      building_age_group := some element_in.building_age_group,
      construction_type := some element_in.construction_type,
      inner_radiation := some element_in.inner_radiation,
      inner_convection := some element_in.inner_convection }
  if element.typeName = "OuterWall" ∨ element.typeName = "Rooftop" ∨
      element.typeName = "Door" then
    match element_in.outer_radiation, element_in.outer_convection with
    | none, _ => Except.error "KeyError: outer_radiation"
    | some _, none => Except.error "KeyError: outer_convection"
    | some orad, some oconv =>
        Except.ok { el0 with
          outer_radiation := some orad, outer_convection := some oconv }
  else if element.typeName = "Window" then
    match element_in.outer_radiation, element_in.outer_convection,
        element_in.g_value, element_in.a_conv, element_in.shading_g_total,
        element_in.shading_max_irr with
    | none, _, _, _, _, _ => Except.error "KeyError: outer_radiation"
    | some _, none, _, _, _, _ => Except.error "KeyError: outer_convection"
    | some _, some _, none, _, _, _ => Except.error "KeyError: g_value"
    | some _, some _, some _, none, _, _ => Except.error "KeyError: a_conv"
    | some _, some _, some _, some _, none, _ =>
        Except.error "KeyError: shading_g_total"
    | some _, some _, some _, some _, some _, none =>
        Except.error "KeyError: shading_max_irr"
    | some orad, some oconv, some g, some a, some sg, some sm =>
        Except.ok { el0 with
          outer_radiation := some orad, outer_convection := some oconv,
          g_value := some g, a_conv := some a, shading_g_total := some sg,
          shading_max_irr := some sm }
  else Except.ok el0

/-- One step of the layer-assembly loop shared verbatim by both resolver
functions (lines 60-70 and 105-115): create a Layer attached to the
element, set its id and thickness from the layer definition, and resolve
its material by id. -/
def add_layer (data_class : DataClass) (el : BuildingElement)
    (p : String × LayerIn) : Except String BuildingElement :=
  match load_material_id p.2.material_id data_class with
  | Except.ok m =>
      Except.ok { el with
        layers := el.layers ++ [⟨p.1, p.2.thickness, m⟩] }
  | Except.error e => Except.error e

/-- The per-record application both resolver functions perform on a record:
`_set_basic_data` followed by the layer loop, iterating the record's layer
mapping reversed when `reverse_layers` is set and in storage order
otherwise. This block appears verbatim in `load_type_element` (once per
matching record) and in `load_type_element_by_key`. -/
def apply_record (data_class : DataClass) (reverse_layers : Bool)
    (element : BuildingElement) (element_in : ElementIn) :
    Except String BuildingElement :=
  match set_basic_data element element_in with
  | Except.error e => Except.error e
  | Except.ok el1 =>
      (if reverse_layers then element_in.layer.reverse else element_in.layer).foldlM
        (add_layer data_class) el1

/-- Python's `s.startswith(pre)`: `pre` is a prefix of `s`, tested on the
underlying character lists. -/
def starts_with (s pre : String) : Bool :=
  pre.data.isPrefixOf s.data

/-- The match predicate of `load_type_element` (lines 51-58): key is not
the "version" metadata entry, the record's age range contains the year
inclusively, its technique tag equals `construction` exactly, and the key
starts with the element-type string. -/
def matches_record (element_type : String) (year : ℤ) (construction : String)
    (kv : String × ElementIn) : Bool :=
  (kv.1 != "version") &&
    (decide (kv.2.building_age_group.1 ≤ year) &&
      decide (year ≤ kv.2.building_age_group.2) &&
      (kv.2.construction_type == construction) &&
      starts_with kv.1 element_type)

/-- `load_type_element` (lines 8-70): the element-type string defaults to
the element's runtime type name; every database record passing
`matches_record` is applied via `apply_record`, in database storage
order. -/
def load_type_element (element : BuildingElement) (year : ℤ)
    (construction : String) (data_class : DataClass)
    (element_type : Option String) (reverse_layers : Bool) :
    Except String BuildingElement :=
  data_class.element_bind.foldlM
    (fun el kv =>
      if matches_record (element_type.getD element.typeName) year construction
          kv then
        apply_record data_class reverse_layers el kv.2
      else Except.ok el)
    element

/-- `load_type_element_by_key` (lines 73-115): index the database by the
exact key (Python `element_binding[key_str]`, raising `KeyError` when
absent) and apply the record unconditionally. -/
def load_type_element_by_key (element : BuildingElement) (key_str : String)
    (data_class : DataClass) (reverse_layers : Bool) :
    Except String BuildingElement :=
  match data_class.element_bind.lookup key_str with
  | none => Except.error ("KeyError: " ++ key_str)
  | some element_in => apply_record data_class reverse_layers element element_in

/-! ## Archetype Geometry Estimator (`singlefamilydwelling.py`)

The categorical inputs and the estimation constants are set in
`SingleFamilyDwelling.__init__`; every coefficient is initialised to `0.0`
and then overwritten by an `if/elif` chain with no `else` branch, so a
categorical value outside the documented table silently keeps `0.0`. The
chains below reproduce the source values (given as exact rationals:
`1.33 = 133/100` etc.). -/

/-- The categorical and numeric inputs to `SingleFamilyDwelling`:
`number_of_floors` and `net_leased_area` plus the five configuration
values, each defaulting to 0 when unset (their setters replace `None`
by 0). -/
structure SingleFamilyDwelling where
  number_of_floors : ℤ
  net_leased_area : ℚ
  residential_layout : ℕ
  neighbour_buildings : ℕ
  attic : ℕ
  cellar : ℕ
  dormer : ℕ
deriving Repr, DecidableEq

/-- `self.est_living_area_factor = 0.75` (fW). -/
def est_living_area_factor : ℚ := 3 / 4

/-- `self.est_bottom_building_closure = 1.33` (p_FB). -/
def est_bottom_building_closure : ℚ := 133 / 100

/-- `self.est_upper_building_closure = 1.0`. -/
def est_upper_building_closure : ℚ := 1

/-- `self.est_factor_win_area = 0.2`. -/
def est_factor_win_area : ℚ := 1 / 5

/-- `self.est_factor_cellar_area = 0.5`. -/
def est_factor_cellar_area : ℚ := 1 / 2

/-- `self._est_factor_heated_attic` (f_TB_DG): 0/1 -> 0.0, 2 -> 0.5,
3 -> 1.0, anything else keeps the initialisation value 0.0. -/
def est_factor_heated_attic (attic : ℕ) : ℚ :=
  if attic = 0 then 0
  else if attic = 1 then 0
  else if attic = 2 then 1 / 2
  else if attic = 3 then 1
  else 0

/-- `self._est_area_per_floor` (p_DA): 0 -> 1.33, 1 -> 0.0, 2 -> 0.75,
3 -> 1.5, anything else keeps 0.0. -/
def est_area_per_floor (attic : ℕ) : ℚ :=
  if attic = 0 then 133 / 100
  else if attic = 1 then 0
  else if attic = 2 then 3 / 4
  else if attic = 3 then 3 / 2
  else 0

/-- `self._est_area_per_roof` (p_OG): 0 -> 0.0, 1 -> 1.33, 2 -> 0.67,
3 -> 0.0, anything else keeps 0.0. -/
def est_area_per_roof (attic : ℕ) : ℚ :=
  if attic = 0 then 0
  else if attic = 1 then 133 / 100
  else if attic = 2 then 67 / 100
  else if attic = 3 then 0
  else 0

/-- `self._est_factor_heated_cellar` (f_TB_KG): 0/1 -> 0.0, 2 -> 0.5,
3 -> 1.0, anything else keeps 0.0. -/
def est_factor_heated_cellar (cellar : ℕ) : ℚ :=
  if cellar = 0 then 0
  else if cellar = 1 then 0
  else if cellar = 2 then 1 / 2
  else if cellar = 3 then 1
  else 0

/-- `self._est_factor_dormer`: 0 -> 1.0, 1 -> 1.3, anything else keeps the
initialisation value 0.0. -/
def est_factor_dormer (dormer : ℕ) : ℚ :=
  if dormer = 0 then 1
  else if dormer = 1 then 13 / 10
  else 0

/-- `self._est_extra_floor_area` (q_Fa): set to 50.0/30.0/10.0 only by the
`neighbour_buildings == 0/1/2` branches (lines 279-287). Unlike every
other coefficient, line 277 initialises the NON-underscored name
`est_extra_floor_area`, so for any other neighbour count the underscored
attribute that `generate_archetype` reads at line 385 is never created:
`none` models the missing attribute, whose read raises
`AttributeError`. -/
def est_extra_floor_area (neighbour_buildings : ℕ) : Option ℚ :=
  if neighbour_buildings = 0 then some 50
  else if neighbour_buildings = 1 then some 30
  else if neighbour_buildings = 2 then some 10
  else none

/-- `self._est_facade_to_floor_area` (p_Fa): 0 -> 0.66, 1 -> 0.8, anything
else keeps 0.0. -/
def est_facade_to_floor_area (residential_layout : ℕ) : ℚ :=
  if residential_layout = 0 then 66 / 100
  else if residential_layout = 1 then 8 / 10
  else 0

/-- `self.outer_wall_names`: name, tilt, orientation of the four default
facades. -/
def outer_wall_names : List (String × ℚ × ℚ) :=
  [("Exterior Facade North", 90, 0),
   ("Exterior Facade East", 90, 90),
   ("Exterior Facade South", 90, 180),
   ("Exterior Facade West", 90, 270)]

/-- `self.window_names`: name, tilt, orientation of the four default
window groups. -/
def window_names : List (String × ℚ × ℚ) :=
  [("Window Facade North", 90, 0),
   ("Window Facade East", 90, 90),
   ("Window Facade South", 90, 180),
   ("Window Facade West", 90, 270)]

/-- `self.nr_of_orientation = len(self.outer_wall_names)`. -/
def nr_of_orientation : ℕ := outer_wall_names.length

/-- `self._number_of_heated_floors` (line 360): heated cellar factor plus
floor count plus `est_living_area_factor` times the heated attic factor. -/
def number_of_heated_floors (b : SingleFamilyDwelling) : ℚ :=
  est_factor_heated_cellar b.cellar + (b.number_of_floors : ℚ)
    + est_living_area_factor * est_factor_heated_attic b.attic

/-- `self._living_area_per_floor` (line 366): the input net leased area
divided by the heated floor count; in Python this division raises
`ZeroDivisionError` when the denominator is zero, modelled by the guard in
`generate_archetype`. -/
def living_area_per_floor (b : SingleFamilyDwelling) : ℚ :=
  b.net_leased_area / number_of_heated_floors b

/-- `self._est_ground_floor_area` (line 368). -/
def est_ground_floor_area (b : SingleFamilyDwelling) : ℚ :=
  est_bottom_building_closure * living_area_per_floor b

/-- The roof-area product of line 372 before the zero fallback. -/
def est_roof_area_raw (b : SingleFamilyDwelling) : ℚ :=
  est_upper_building_closure * est_factor_dormer b.dormer
    * est_area_per_floor b.attic * living_area_per_floor b

/-- `self._top_floor_area` (line 379). -/
def top_floor_area (b : SingleFamilyDwelling) : ℚ :=
  est_area_per_roof b.attic * living_area_per_floor b

/-- `self._est_roof_area` after the fallback of line 381: if the product
is exactly zero it is replaced by the top-floor area. -/
def est_roof_area (b : SingleFamilyDwelling) : ℚ :=
  if est_roof_area_raw b = 0 then top_floor_area b else est_roof_area_raw b

/-- `self._est_facade_area` (line 384), given the value `q_fa` read from
the `_est_extra_floor_area` attribute (whose read may instead raise, see
`est_extra_floor_area`). -/
def est_facade_area (b : SingleFamilyDwelling) (q_fa : ℚ) : ℚ :=
  est_facade_to_floor_area b.residential_layout
    * (living_area_per_floor b + q_fa)

/-- `self._est_win_area` (line 388). -/
def est_win_area (b : SingleFamilyDwelling) : ℚ :=
  est_factor_win_area * b.net_leased_area

/-- `self._est_cellar_wall_area` (line 390). -/
def est_cellar_wall_area (b : SingleFamilyDwelling) (q_fa : ℚ) : ℚ :=
  est_factor_cellar_area * est_factor_heated_cellar b.cellar
    * est_facade_area b q_fa

/-- `self._est_outer_wall_area` (line 396). -/
def est_outer_wall_area (b : SingleFamilyDwelling) (q_fa : ℚ) : ℚ :=
  number_of_heated_floors b * est_facade_area b q_fa
    - est_cellar_wall_area b q_fa - est_win_area b

/-- The per-orientation area assignment loops (lines 422-434 and 448-456):
iterate the name table; an orientation of 0 or 180 (North/South) and one
of 90 or 270 (East/West) each get `total / nr_of_orientation`; any other
orientation is skipped by the `if/elif`. -/
def split_areas (total : ℚ) (names : List (String × ℚ × ℚ)) :
    List (ℚ × ℚ) :=
  names.foldl
    (fun acc v =>
      if v.2.2 = 0 ∨ v.2.2 = 180 then
        acc ++ [(v.2.2, total / (nr_of_orientation : ℚ))]
      else if v.2.2 = 90 ∨ v.2.2 = 270 then
        acc ++ [(v.2.2, total / (nr_of_orientation : ℚ))]
      else acc)
    []

/-- The numeric results of `generate_archetype` (lines 349-561): the
intermediate estimation attributes and the per-orientation area
dictionaries `self.outer_area` (walls at orientations 0/90/180/270, the
roof under -1, the ground floor under -2, in insertion order) and
`self.window_area`. -/
structure ArchetypeResult where
  number_of_heated_floors : ℚ
  living_area_per_floor : ℚ
  est_ground_floor_area : ℚ
  top_floor_area : ℚ
  est_roof_area : ℚ
  est_facade_area : ℚ
  est_win_area : ℚ
  est_cellar_wall_area : ℚ
  est_outer_wall_area : ℚ
  outer_area : List (ℚ × ℚ)
  window_area : List (ℚ × ℚ)
deriving Repr, DecidableEq

/-- `generate_archetype`: the estimation pipeline of lines 356-456.
The division at line 366 raises `ZeroDivisionError` exactly when
`number_of_heated_floors` is zero; afterwards the facade computation at
line 385 reads `self._est_extra_floor_area`, which raises
`AttributeError` for a neighbour count outside 0/1/2 (see
`est_extra_floor_area`); otherwise all areas are derived and the
per-orientation dictionaries filled. -/
def generate_archetype (b : SingleFamilyDwelling) :
    Except String ArchetypeResult :=
  if number_of_heated_floors b = 0 then
    Except.error "ZeroDivisionError: float division by zero"
  else
    match est_extra_floor_area b.neighbour_buildings with
    | none => Except.error "AttributeError: _est_extra_floor_area"
    | some q_fa =>
      Except.ok
        { number_of_heated_floors := number_of_heated_floors b,
          living_area_per_floor := living_area_per_floor b,
          est_ground_floor_area := est_ground_floor_area b,
          top_floor_area := top_floor_area b,
          est_roof_area := est_roof_area b,
          est_facade_area := est_facade_area b q_fa,
          est_win_area := est_win_area b,
          est_cellar_wall_area := est_cellar_wall_area b q_fa,
          est_outer_wall_area := est_outer_wall_area b q_fa,
          outer_area :=
            split_areas (est_outer_wall_area b q_fa) outer_wall_names
              ++ [(-1, est_roof_area b), (-2, est_ground_floor_area b)],
          window_area := split_areas (est_win_area b) window_names }

/-! ## Observations and concrete instances used by the theorems -/

/-- The observable content of an assembled layer: its id, thickness, and
the id of its material. -/
def layer_sig (l : Layer) : String × ℚ × String :=
  (l.id, l.thickness, l.material.material_id)

/-- The corresponding content of one layer definition of a record. -/
def layer_in_sig (p : String × LayerIn) : String × ℚ × String :=
  (p.1, p.2.thickness, p.2.material_id)

/-- A concrete material record. -/
def mat_bk : Material :=
  { material_id := "bk01", name := "Brick", density := 1800,
    thermal_conduc := 1, heat_capac := 1000 }

/-- A concrete OuterWall-category record (carries the outer
coefficients). -/
def rec_ow : ElementIn :=
  { building_age_group := (1950, 1980), construction_type := "heavy",
    inner_radiation := 5, inner_convection := 27 / 10,
    outer_radiation := some 5, outer_convection := some 20,
    g_value := none, a_conv := none,
    shading_g_total := none, shading_max_irr := none,
    layer := [("0", ⟨3 / 10, "bk01"⟩), ("1", ⟨1 / 10, "bk01"⟩)] }

/-- A concrete InnerWall-category record: it does not carry the outer
coefficients (an InnerWall JSON record has no such keys). -/
def rec_iw : ElementIn :=
  { building_age_group := (1950, 1980), construction_type := "heavy",
    inner_radiation := 5, inner_convection := 27 / 10,
    outer_radiation := none, outer_convection := none,
    g_value := none, a_conv := none,
    shading_g_total := none, shading_max_irr := none,
    layer := [("0", ⟨2 / 10, "bk01"⟩)] }

/-- A concrete database: a "version" metadata entry (skipped by key during
the scan, so its payload is never read), one OuterWall record and one
InnerWall record. -/
def dc_c : DataClass :=
  { element_bind :=
      [("version", rec_iw),
       ("OuterWall_1950_heavy", rec_ow),
       ("InnerWall_1950_heavy", rec_iw)],
    mat_bind := [mat_bk] }

/-- A fresh OuterWall element: nothing set yet. -/
def el_ow : BuildingElement :=
  { typeName := "OuterWall", building_age_group := none,
    construction_type := none, inner_radiation := none,
    inner_convection := none, outer_radiation := none,
    outer_convection := none, g_value := none, a_conv := none,
    shading_g_total := none, shading_max_irr := none, layers := [] }

/-- `el_ow` after `set_basic_data` with `rec_ow`. -/
def el_ow_basic : BuildingElement :=
  { el_ow with
    building_age_group := some (1950, 1980),
    construction_type := some "heavy",
    inner_radiation := some 5, inner_convection := some (27 / 10),
    outer_radiation := some 5, outer_convection := some 20 }

/-- The spec's reference configuration: 1 floor, 120 m² net leased area,
all categorical values 0. -/
def sfd_default : SingleFamilyDwelling :=
  { number_of_floors := 1, net_leased_area := 120, residential_layout := 0,
    neighbour_buildings := 0, attic := 0, cellar := 0, dormer := 0 }

/-- The estimation result for `sfd_default`:
heated floors 1, living area per floor 120, ground floor and roof area
159.6, facade area 112.2, window area 24, outer-wall area 88.2. -/
def r_default : ArchetypeResult :=
  { number_of_heated_floors := 1, living_area_per_floor := 120,
    est_ground_floor_area := 798 / 5, top_floor_area := 0,
    est_roof_area := 798 / 5, est_facade_area := 561 / 5,
    est_win_area := 24, est_cellar_wall_area := 0,
    est_outer_wall_area := 441 / 5,
    outer_area :=
      [(0, 441 / 20), (90, 441 / 20), (180, 441 / 20), (270, 441 / 20),
       (-1, 798 / 5), (-2, 798 / 5)],
    window_area := [(0, 6), (90, 6), (180, 6), (270, 6)] }

/-- The reference configuration with the undocumented attic value 5. -/
def sfd_attic5 : SingleFamilyDwelling :=
  { sfd_default with attic := 5 }

/-- The reference configuration with the undocumented neighbour count 3
(no `neighbour_buildings` branch sets `_est_extra_floor_area`, so the
attribute read at line 385 raises). -/
def sfd_nb3 : SingleFamilyDwelling :=
  { sfd_default with neighbour_buildings := 3 }

/-- The estimation result for `sfd_attic5`: identical to `r_default`
except that the roof area collapses to 0 (both the roof product and the
top-floor fallback use silently defaulted zero coefficients). -/
def r_attic5 : ArchetypeResult :=
  { r_default with
    est_roof_area := 0,
    outer_area :=
      [(0, 441 / 20), (90, 441 / 20), (180, 441 / 20), (270, 441 / 20),
       (-1, 0), (-2, 798 / 5)] }

/-! ## Helper lemmas -/

theorem exc_bind_ok {α β : Type} (a : α) (f : α → Except String β) :
    (Except.ok a >>= f) = f a := rfl

theorem exc_bind_error {α β : Type} (e : String) (f : α → Except String β) :
    ((Except.error e : Except String α) >>= f) = Except.error e := rfl

/-- A conditional `Except`-fold equals the plain fold over the filtered
list. -/
theorem foldlM_filter {α σ : Type} (p : α → Bool)
    (g : σ → α → Except String σ) :
    ∀ (L : List α) (s : σ),
      L.foldlM (fun t a => if p a then g t a else Except.ok t) s =
        (L.filter p).foldlM g s := by
  intro L
  induction L with
  | nil => intro s; rfl
  | cons a as ih =>
    intro s
    rw [List.filter_cons]
    by_cases h : p a = true
    · rw [if_pos h, List.foldlM_cons, List.foldlM_cons, if_pos h]
      cases hg : g s a with
      | ok s1 => rw [exc_bind_ok, exc_bind_ok]; exact ih s1
      | error e => rw [exc_bind_error, exc_bind_error]
    · rw [if_neg h, List.foldlM_cons, if_neg h, exc_bind_ok]
      exact ih s

theorem bool_eq_decide {P : Prop} [Decidable P] {b : Bool}
    (h : b = true ↔ P) : b = decide P := by
  rw [Bool.eq_iff_iff, decide_eq_true_eq]
  exact h

/-- The material returned by `load_material_id` carries the requested
id. -/
theorem load_material_id_id {material_id : String} {dc : DataClass}
    {m : Material} (h : load_material_id material_id dc = Except.ok m) :
    m.material_id = material_id := by
  unfold load_material_id at h
  split at h
  next m1 hfind =>
    cases h
    have h2 := List.find?_some hfind
    exact eq_of_beq h2
  next hfind => cases h

/-- When every material of a layer list resolves, the layer fold succeeds
and appends exactly the definitions' ids, thicknesses and material ids, in
traversal order. -/
theorem foldlM_add_layer (dc : DataClass) :
    ∀ (L : List (String × LayerIn)) (el : BuildingElement),
      (∀ p ∈ L, ∃ m, load_material_id p.2.material_id dc = Except.ok m) →
      (L.foldlM (add_layer dc) el).map (fun e => e.layers.map layer_sig) =
        Except.ok (el.layers.map layer_sig ++ L.map layer_in_sig) := by
  intro L
  induction L with
  | nil =>
    intro el _
    show (Except.ok el).map (fun e => e.layers.map layer_sig) = _
    simp [Except.map]
  | cons p L ih =>
    intro el h
    obtain ⟨m, hm⟩ := h p (List.mem_cons_self p L)
    have hstep : add_layer dc el p =
        Except.ok { el with layers := el.layers ++ [⟨p.1, p.2.thickness, m⟩] } := by
      unfold add_layer
      rw [hm]
    rw [List.foldlM_cons, hstep, exc_bind_ok,
      ih _ (fun q hq => h q (List.mem_cons_of_mem p hq))]
    have hid := load_material_id_id hm
    simp [layer_sig, layer_in_sig, hid]

/-- `set_basic_data` never touches the element's layer list. -/
theorem set_basic_data_layers {element el1 : BuildingElement}
    {rec : ElementIn} (h : set_basic_data element rec = Except.ok el1) :
    el1.layers = element.layers := by
  simp only [set_basic_data] at h
  split at h
  · split at h <;> (cases h <;> rfl)
  · split at h
    · split at h <;> (cases h <;> rfl)
    · cases h <;> rfl

/-- When `set_basic_data` succeeds and every layer material resolves,
applying a record appends exactly its layer definitions (reversed when
requested) to the element's layers. -/
theorem apply_record_layers {dc : DataClass} {rev : Bool}
    {element el1 : BuildingElement} {rec : ElementIn}
    (hbasic : set_basic_data element rec = Except.ok el1)
    (hmat : ∀ p ∈ rec.layer,
      ∃ m, load_material_id p.2.material_id dc = Except.ok m) :
    (apply_record dc rev element rec).map (fun e => e.layers.map layer_sig) =
      Except.ok (element.layers.map layer_sig ++
        (if rev then rec.layer.reverse else rec.layer).map layer_in_sig) := by
  unfold apply_record
  rw [hbasic]
  have hmem : ∀ p, p ∈ (if rev then rec.layer.reverse else rec.layer) →
      p ∈ rec.layer := by
    intro p hp
    split at hp
    · exact List.mem_reverse.mp hp
    · exact hp
  rw [foldlM_add_layer dc (if rev then rec.layer.reverse else rec.layer) el1
    (fun p hp => hmat p (hmem p hp))]
  rw [set_basic_data_layers hbasic]

/-- Success analysis of `generate_archetype`: an `ok` result means a
nonzero heated floor count, an in-table neighbour count providing the
extra floor area, and the result record's fields are the estimation
formulas. -/
theorem generate_archetype_ok {b : SingleFamilyDwelling}
    {r : ArchetypeResult} (h : generate_archetype b = Except.ok r) :
    number_of_heated_floors b ≠ 0 ∧
      ∃ q_fa, est_extra_floor_area b.neighbour_buildings = some q_fa ∧
      r = { number_of_heated_floors := number_of_heated_floors b,
            living_area_per_floor := living_area_per_floor b,
            est_ground_floor_area := est_ground_floor_area b,
            top_floor_area := top_floor_area b,
            est_roof_area := est_roof_area b,
            est_facade_area := est_facade_area b q_fa,
            est_win_area := est_win_area b,
            est_cellar_wall_area := est_cellar_wall_area b q_fa,
            est_outer_wall_area := est_outer_wall_area b q_fa,
            outer_area :=
              split_areas (est_outer_wall_area b q_fa) outer_wall_names
                ++ [(-1, est_roof_area b), (-2, est_ground_floor_area b)],
            window_area := split_areas (est_win_area b) window_names } := by
  unfold generate_archetype at h
  split at h
  · cases h
  next hne =>
    split at h
    · cases h
    next q_fa hq =>
      cases h
      exact ⟨hne, q_fa, hq, rfl⟩

theorem est_factor_heated_cellar_nonneg (c : ℕ) :
    0 ≤ est_factor_heated_cellar c := by
  unfold est_factor_heated_cellar
  repeat' split
  all_goals norm_num

theorem est_factor_heated_attic_nonneg (a : ℕ) :
    0 ≤ est_factor_heated_attic a := by
  unfold est_factor_heated_attic
  repeat' split
  all_goals norm_num

/-- With at least one floor the heated floor count is positive (the
cellar and attic factors are non-negative). -/
theorem number_of_heated_floors_ne_zero (b : SingleFamilyDwelling)
    (hfl : 1 ≤ b.number_of_floors) :
    number_of_heated_floors b ≠ 0 := by
  have h1 : (1 : ℚ) ≤ (b.number_of_floors : ℚ) := by exact_mod_cast hfl
  have h2 := est_factor_heated_cellar_nonneg b.cellar
  have h3 := est_factor_heated_attic_nonneg b.attic
  have h4 : (0 : ℚ) ≤ est_living_area_factor * est_factor_heated_attic b.attic :=
    mul_nonneg (by norm_num [est_living_area_factor]) h3
  have hpos : 0 < number_of_heated_floors b := by
    unfold number_of_heated_floors
    linarith
  exact hpos.ne'

/-- With at least one floor and an in-table neighbour count, generation
takes the success branch. -/
theorem generate_archetype_ok_of_floors (b : SingleFamilyDwelling)
    (hfl : 1 ≤ b.number_of_floors) (hn : b.neighbour_buildings ≤ 2) :
    (generate_archetype b).isOk = true := by
  have h0 := number_of_heated_floors_ne_zero b hfl
  have hsome : ∃ q, est_extra_floor_area b.neighbour_buildings = some q := by
    unfold est_extra_floor_area
    repeat' split
    · exact ⟨50, rfl⟩
    · exact ⟨30, rfl⟩
    · exact ⟨10, rfl⟩
    · omega
  obtain ⟨q, hq⟩ := hsome
  unfold generate_archetype
  rw [if_neg h0, hq]
  rfl

/-- With a nonzero heated floor count but a neighbour count outside the
0/1/2 table, generation raises the `AttributeError` of line 385 (the
`_est_extra_floor_area` attribute was never created). -/
theorem generate_archetype_attribute_error (b : SingleFamilyDwelling)
    (hfl : 1 ≤ b.number_of_floors) (hn : 2 < b.neighbour_buildings) :
    generate_archetype b =
      Except.error "AttributeError: _est_extra_floor_area" := by
  have h0 := number_of_heated_floors_ne_zero b hfl
  have hnone : est_extra_floor_area b.neighbour_buildings = none := by
    unfold est_extra_floor_area
    rw [if_neg (by omega : ¬b.neighbour_buildings = 0),
      if_neg (by omega : ¬b.neighbour_buildings = 1),
      if_neg (by omega : ¬b.neighbour_buildings = 2)]
  unfold generate_archetype
  rw [if_neg h0, hnone]

/-- Evaluation of the orientation split over the default wall table. -/
theorem split_areas_outer (total : ℚ) :
    split_areas total outer_wall_names =
      [(0, total / 4), (90, total / 4), (180, total / 4), (270, total / 4)] := by
  norm_num [split_areas, outer_wall_names, nr_of_orientation, List.foldl]

/-- Evaluation of the orientation split over the default window table. -/
theorem split_areas_window (total : ℚ) :
    split_areas total window_names =
      [(0, total / 4), (90, total / 4), (180, total / 4), (270, total / 4)] := by
  norm_num [split_areas, window_names, outer_wall_names, nr_of_orientation,
    List.foldl]

/-! ## Claim theorems: Type-Element Resolver -/

/-- C1: resolve-by-characteristics applies a database record if and only
if its key is not the metadata entry "version", its key starts with the
category string (the element's runtime type name unless the element_type
override is given), its age range contains the year inclusively on both
bounds, and its construction-technique tag equals the given technique
exactly: the scan equals the fold of the per-record application over
exactly the records satisfying that predicate, in storage order. -/
theorem load_type_element_applies_iff_matches
    (element : BuildingElement) (year : ℤ) (construction : String)
    (data_class : DataClass) (element_type : Option String)
    (reverse_layers : Bool) :
    load_type_element element year construction data_class element_type
        reverse_layers =
      (data_class.element_bind.filter (fun kv =>
          decide (kv.1 ≠ "version" ∧
            starts_with kv.1 (element_type.getD element.typeName) = true ∧
            kv.2.building_age_group.1 ≤ year ∧
            year ≤ kv.2.building_age_group.2 ∧
            kv.2.construction_type = construction))).foldlM
        (fun el kv => apply_record data_class reverse_layers el kv.2)
        element := by
  have hpred : (fun kv : String × ElementIn =>
      matches_record (element_type.getD element.typeName) year construction kv)
      = (fun kv : String × ElementIn =>
          decide (kv.1 ≠ "version" ∧
            starts_with kv.1 (element_type.getD element.typeName) = true ∧
            kv.2.building_age_group.1 ≤ year ∧
            year ≤ kv.2.building_age_group.2 ∧
            kv.2.construction_type = construction)) := by
    funext kv
    apply bool_eq_decide
    simp only [matches_record, Bool.and_eq_true, decide_eq_true_eq,
      beq_iff_eq, bne_iff_ne]
    tauto
  calc load_type_element element year construction data_class element_type
        reverse_layers
      = (data_class.element_bind.filter (fun kv =>
          matches_record (element_type.getD element.typeName) year
            construction kv)).foldlM
          (fun el kv => apply_record data_class reverse_layers el kv.2)
          element := foldlM_filter _ _ _ _
    _ = _ := by rw [hpred]

/-- C2: when no database record satisfies the matching predicate,
`load_type_element` raises no error and returns the element entirely
unchanged, so its pre-set category-independent defaults are kept: exchange
coefficients stay unset and no layers are added. -/
theorem load_type_element_no_match_no_op
    (element : BuildingElement) (year : ℤ) (construction : String)
    (data_class : DataClass) (element_type : Option String)
    (reverse_layers : Bool)
    (h : ∀ kv ∈ data_class.element_bind,
      matches_record (element_type.getD element.typeName) year construction
        kv = false) :
    load_type_element element year construction data_class element_type
      reverse_layers = Except.ok element := by
  have h1 : data_class.element_bind.filter (fun kv =>
      matches_record (element_type.getD element.typeName) year construction
        kv) = [] := by
    rw [List.filter_eq_nil_iff]
    intro kv hkv
    simp [h kv hkv]
  calc load_type_element element year construction data_class element_type
        reverse_layers
      = (data_class.element_bind.filter (fun kv =>
          matches_record (element_type.getD element.typeName) year
            construction kv)).foldlM
          (fun el kv => apply_record data_class reverse_layers el kv.2)
          element := foldlM_filter _ _ _ _
    _ = Except.ok element := by rw [h1]; rfl

/-- C2 witness: against the concrete database, year 1700 matches nothing
and the fresh OuterWall element comes back unchanged with no error. -/
theorem load_type_element_no_match_no_op_witness :
    load_type_element el_ow 1700 "heavy" dc_c none false =
      Except.ok el_ow :=
  load_type_element_no_match_no_op el_ow 1700 "heavy" dc_c none false
    (by decide)

/-- C3: when exactly one record matches (respectively, when the key
resolves to the record), the element receives one layer per layer
definition of that record, with exactly the record's thicknesses and
material ids, in the record's forward storage order when reverse_layers
is false and in exactly the reversed order when it is true — for both
resolve-by-characteristics and resolve-by-key. -/
theorem single_match_layer_assembly
    (element el1 : BuildingElement) (year : ℤ) (construction key : String)
    (data_class : DataClass) (element_type : Option String)
    (reverse_layers : Bool) (rec : ElementIn)
    (hbasic : set_basic_data element rec = Except.ok el1)
    (hmat : ∀ p ∈ rec.layer,
      ∃ m, load_material_id p.2.material_id data_class = Except.ok m) :
    (data_class.element_bind.filter (fun kv =>
        matches_record (element_type.getD element.typeName) year construction
          kv) = [(key, rec)] →
      (load_type_element element year construction data_class element_type
          reverse_layers).map (fun e => e.layers.map layer_sig) =
        Except.ok (element.layers.map layer_sig ++
          (if reverse_layers then rec.layer.reverse else rec.layer).map
            layer_in_sig)) ∧
    (data_class.element_bind.lookup key = some rec →
      (load_type_element_by_key element key data_class reverse_layers).map
          (fun e => e.layers.map layer_sig) =
        Except.ok (element.layers.map layer_sig ++
          (if reverse_layers then rec.layer.reverse else rec.layer).map
            layer_in_sig)) := by
  have happ := @apply_record_layers data_class reverse_layers element el1 rec
    hbasic hmat
  constructor
  · intro hfilter
    have h1 : load_type_element element year construction data_class
        element_type reverse_layers =
        apply_record data_class reverse_layers element rec := by
      calc load_type_element element year construction data_class
            element_type reverse_layers
          = (data_class.element_bind.filter (fun kv =>
              matches_record (element_type.getD element.typeName) year
                construction kv)).foldlM
              (fun el kv => apply_record data_class reverse_layers el kv.2)
              element := foldlM_filter _ _ _ _
        _ = apply_record data_class reverse_layers element rec := by
            rw [hfilter, List.foldlM_cons]
            cases happly : apply_record data_class reverse_layers element rec
              with
            | ok e2 => rw [exc_bind_ok]; rfl
            | error e2 => rw [exc_bind_error]
    rw [h1]
    exact happ
  · intro hkey
    unfold load_type_element_by_key
    rw [hkey]
    exact happ

/-- C3 witness: in the concrete database exactly the OuterWall record
matches year 1960 with technique "heavy"; the resolved fresh element holds
exactly the record's two layers, forward. -/
theorem single_match_layer_assembly_witness :
    (load_type_element el_ow 1960 "heavy" dc_c none false).map
        (fun e => e.layers.map layer_sig) =
      Except.ok [("0", (3 / 10 : ℚ), "bk01"), ("1", (1 / 10 : ℚ), "bk01")] := by
  have h := single_match_layer_assembly el_ow el_ow_basic 1960 "heavy"
    "OuterWall_1950_heavy" dc_c none false rec_ow rfl
    (by
      intro p hp
      refine ⟨mat_bk, ?_⟩
      have hp2 : p = ("0", (⟨3 / 10, "bk01"⟩ : LayerIn)) ∨
          p = ("1", (⟨1 / 10, "bk01"⟩ : LayerIn)) := by
        simpa [rec_ow] using hp
      rcases hp2 with rfl | rfl <;> rfl)
  exact h.1 rfl

/-- C8: resolve-by-key fails with a not-found error exactly when the given
key is absent from the database, and for every present key applies that
record's coefficients and layers unconditionally via the same per-record
assembly (`apply_record`, i.e. `set_basic_data` plus the layer loop) as
resolve-by-characteristics. -/
theorem load_type_element_by_key_spec
    (element : BuildingElement) (key_str : String) (data_class : DataClass)
    (reverse_layers : Bool) :
    (data_class.element_bind.lookup key_str = none →
      load_type_element_by_key element key_str data_class reverse_layers =
        Except.error ("KeyError: " ++ key_str)) ∧
    (∀ element_in, data_class.element_bind.lookup key_str = some element_in →
      load_type_element_by_key element key_str data_class reverse_layers =
        apply_record data_class reverse_layers element element_in) := by
  constructor
  · intro h
    unfold load_type_element_by_key
    rw [h]
  · intro element_in h
    unfold load_type_element_by_key
    rw [h]

/-- C8 witness: an absent key makes resolve-by-key fail with the not-found
error. -/
theorem load_type_element_by_key_spec_witness :
    load_type_element_by_key el_ow "missing_key" dc_c false =
      Except.error ("KeyError: " ++ "missing_key") :=
  (load_type_element_by_key_spec el_ow "missing_key" dc_c false).1 rfl

/-- C10: the element_type override enters only the key-prefix matching —
the scan with an override equals the fold of the per-record application
(which never receives the override) over the records matching the override
string — while the coefficient branch of `set_basic_data` is selected by
the element's runtime type name alone: an OuterWall element populated from
records of another category still takes the opaque branch and reads the
outer coefficient fields, failing with a KeyError when the matched record
does not contain them. -/
theorem override_only_affects_matching
    (element : BuildingElement) (year : ℤ) (construction : String)
    (data_class : DataClass) (element_type : String) (reverse_layers : Bool) :
    (load_type_element element year construction data_class
        (some element_type) reverse_layers =
      (data_class.element_bind.filter (fun kv =>
          matches_record element_type year construction kv)).foldlM
        (fun el kv => apply_record data_class reverse_layers el kv.2)
        element) ∧
    (element.typeName = "OuterWall" → ∀ rec : ElementIn,
      rec.outer_radiation = none →
      apply_record data_class reverse_layers element rec =
        Except.error "KeyError: outer_radiation") := by
  constructor
  · exact foldlM_filter _ _ _ _
  · intro hty rec hor
    have hb : set_basic_data element rec =
        Except.error "KeyError: outer_radiation" := by
      simp only [set_basic_data]
      rw [if_pos (Or.inl hty), hor]
    unfold apply_record
    rw [hb]

/-- C10 witness: a fresh OuterWall element populated from the InnerWall
record (which has no outer coefficients) fails with the KeyError on
outer_radiation, because the coefficient branch follows the runtime type,
not the override. -/
theorem override_only_affects_matching_witness :
    apply_record dc_c false el_ow rec_iw =
      Except.error "KeyError: outer_radiation" :=
  (override_only_affects_matching el_ow 1960 "heavy" dc_c "InnerWall"
    false).2 rfl rec_iw rfl

/-! ## Claim theorems: Archetype Geometry Estimator -/

/-- Evaluation of the full estimation pipeline on the reference
configuration. -/
theorem generate_sfd_default_eval :
    generate_archetype sfd_default = Except.ok r_default := by
  norm_num [generate_archetype, number_of_heated_floors,
    living_area_per_floor, est_ground_floor_area, est_roof_area,
    est_roof_area_raw, top_floor_area, est_facade_area, est_win_area,
    est_cellar_wall_area, est_outer_wall_area, est_living_area_factor,
    est_bottom_building_closure, est_upper_building_closure,
    est_factor_win_area, est_factor_cellar_area, est_factor_heated_attic,
    est_area_per_floor, est_area_per_roof, est_factor_heated_cellar,
    est_factor_dormer, est_extra_floor_area, est_facade_to_floor_area,
    split_areas, outer_wall_names, window_names, nr_of_orientation,
    sfd_default, r_default, Except.ok.injEq, ArchetypeResult.mk.injEq,
    List.foldl]

/-- Evaluation of the pipeline on the attic-5 configuration: generation
succeeds, with a zero roof area produced by the silently defaulted
coefficients. -/
theorem generate_sfd_attic5_eval :
    generate_archetype sfd_attic5 = Except.ok r_attic5 := by
  norm_num [generate_archetype, number_of_heated_floors,
    living_area_per_floor, est_ground_floor_area, est_roof_area,
    est_roof_area_raw, top_floor_area, est_facade_area, est_win_area,
    est_cellar_wall_area, est_outer_wall_area, est_living_area_factor,
    est_bottom_building_closure, est_upper_building_closure,
    est_factor_win_area, est_factor_cellar_area, est_factor_heated_attic,
    est_area_per_floor, est_area_per_roof, est_factor_heated_cellar,
    est_factor_dormer, est_extra_floor_area, est_facade_to_floor_area,
    split_areas, outer_wall_names, window_names, nr_of_orientation,
    sfd_attic5, sfd_default, r_attic5, r_default, Except.ok.injEq,
    ArchetypeResult.mk.injEq, List.foldl]

/-- C4: the effective heated floor count equals
heated_cellar_factor + number_of_floors + 0.75 × heated_attic_factor,
where the cellar factor is 0 for cellar 0/1, 0.5 for 2 and 1.0 for 3, the
attic factor likewise by attic type, and the derived living area per floor
times this heated floor count equals the input net leased area. -/
theorem heated_floor_count_spec (b : SingleFamilyDwelling)
    (r : ArchetypeResult) (h : generate_archetype b = Except.ok r) :
    r.number_of_heated_floors =
      est_factor_heated_cellar b.cellar + (b.number_of_floors : ℚ)
        + 3 / 4 * est_factor_heated_attic b.attic ∧
    (est_factor_heated_cellar 0 = 0 ∧ est_factor_heated_cellar 1 = 0 ∧
      est_factor_heated_cellar 2 = 1 / 2 ∧ est_factor_heated_cellar 3 = 1) ∧
    (est_factor_heated_attic 0 = 0 ∧ est_factor_heated_attic 1 = 0 ∧
      est_factor_heated_attic 2 = 1 / 2 ∧ est_factor_heated_attic 3 = 1) ∧
    r.living_area_per_floor * r.number_of_heated_floors =
      b.net_leased_area := by
  obtain ⟨hne, q_fa, hq, rfl⟩ := generate_archetype_ok h
  refine ⟨?_, ?_, ?_, ?_⟩
  · show number_of_heated_floors b = _
    norm_num [number_of_heated_floors, est_living_area_factor]
  · norm_num [est_factor_heated_cellar]
  · norm_num [est_factor_heated_attic]
  · show living_area_per_floor b * number_of_heated_floors b = _
    exact div_mul_cancel₀ b.net_leased_area hne

/-- C4 witness: on the reference configuration, living area per floor
times heated floor count reproduces the input net leased area. -/
theorem heated_floor_count_spec_witness :
    r_default.living_area_per_floor * r_default.number_of_heated_floors =
      sfd_default.net_leased_area :=
  (heated_floor_count_spec sfd_default r_default
    generate_sfd_default_eval).2.2.2

/-- C5: the per-floor living-area derivation fails with the
division-by-zero domain error exactly when the effective heated floor
count evaluates to zero; the cellar and attic factors are always
non-negative, so under number_of_floors ≥ 1 that division-by-zero error
branch is unreachable (generation never returns the ZeroDivisionError —
though it may still fail on the distinct AttributeError path of an
out-of-table neighbour count). -/
theorem division_by_zero_spec (b : SingleFamilyDwelling) :
    (generate_archetype b =
        Except.error "ZeroDivisionError: float division by zero" ↔
      number_of_heated_floors b = 0) ∧
    0 ≤ est_factor_heated_cellar b.cellar ∧
    0 ≤ est_factor_heated_attic b.attic ∧
    (1 ≤ b.number_of_floors →
      generate_archetype b ≠
        Except.error "ZeroDivisionError: float division by zero") := by
  have hiff : generate_archetype b =
      Except.error "ZeroDivisionError: float division by zero" ↔
      number_of_heated_floors b = 0 := by
    constructor
    · intro h
      by_contra h0
      unfold generate_archetype at h
      rw [if_neg h0] at h
      split at h
      · injection h with hs
        exact absurd hs (by decide)
      · cases h
    · intro h0
      unfold generate_archetype
      rw [if_pos h0]
  refine ⟨hiff, est_factor_heated_cellar_nonneg b.cellar,
    est_factor_heated_attic_nonneg b.attic, ?_⟩
  intro hfl h
  exact number_of_heated_floors_ne_zero b hfl (hiff.mp h)

/-- C5 witness: with one floor, generation on the reference configuration
does not take the division-by-zero branch. -/
theorem division_by_zero_spec_witness :
    generate_archetype sfd_default ≠
      Except.error "ZeroDivisionError: float division by zero" :=
  (division_by_zero_spec sfd_default).2.2.2 (by decide)

/-- C6: the roof area is the product upper_closure_factor (1.0) ×
dormer_factor (1.0 or 1.3) × area-per-floor coefficient (by attic type) ×
living area per floor, and exactly when that product evaluates to zero it
is replaced by the fallback top-floor area, the area-per-roof coefficient
(by attic type) × living area per floor. -/
theorem roof_area_fallback_spec (b : SingleFamilyDwelling)
    (r : ArchetypeResult) (h : generate_archetype b = Except.ok r) :
    (est_upper_building_closure * est_factor_dormer b.dormer
        * est_area_per_floor b.attic * r.living_area_per_floor ≠ 0 →
      r.est_roof_area =
        est_upper_building_closure * est_factor_dormer b.dormer
          * est_area_per_floor b.attic * r.living_area_per_floor) ∧
    (est_upper_building_closure * est_factor_dormer b.dormer
        * est_area_per_floor b.attic * r.living_area_per_floor = 0 →
      r.est_roof_area =
        est_area_per_roof b.attic * r.living_area_per_floor) ∧
    est_upper_building_closure = 1 ∧
    est_factor_dormer 0 = 1 ∧ est_factor_dormer 1 = 13 / 10 := by
  obtain ⟨hne, q_fa, hq, rfl⟩ := generate_archetype_ok h
  dsimp only
  refine ⟨?_, ?_, rfl, by norm_num [est_factor_dormer],
    by norm_num [est_factor_dormer]⟩
  · intro hne2
    have hraw : est_roof_area_raw b ≠ 0 := hne2
    unfold est_roof_area
    rw [if_neg hraw]
    rfl
  · intro hz
    have hraw : est_roof_area_raw b = 0 := hz
    unfold est_roof_area
    rw [if_pos hraw]
    rfl

/-- C6 witness: on the reference configuration the product is nonzero and
the roof area equals it (no fallback). -/
theorem roof_area_fallback_spec_witness :
    r_default.est_roof_area =
      est_upper_building_closure * est_factor_dormer sfd_default.dormer
        * est_area_per_floor sfd_default.attic
        * r_default.living_area_per_floor :=
  (roof_area_fallback_spec sfd_default r_default
      generate_sfd_default_eval).1
    (by norm_num [est_upper_building_closure, est_factor_dormer,
      est_area_per_floor, sfd_default, r_default])

/-- C7 counterexample: attic = 5 has no entry in the coefficient tables,
yet the Estimator raises no error: generation succeeds (returning the
concrete result with a zero roof area), while the attic coefficients are
silently defaulted to 0 instead of triggering a descriptive domain
error. -/
theorem invalid_attic_no_error :
    generate_archetype sfd_attic5 = Except.ok r_attic5 ∧
    est_factor_heated_attic 5 = 0 ∧ est_area_per_floor 5 = 0 ∧
    est_area_per_roof 5 = 0 :=
  ⟨generate_sfd_attic5_eval, by norm_num [est_factor_heated_attic],
    by norm_num [est_area_per_floor], by norm_num [est_area_per_roof]⟩

/-- C7 (amended): no categorical configuration value with no entry in the
estimation coefficient tables makes the Estimator fail fast with a
descriptive domain error. For the layout, attic, cellar and dormer axes —
whose backing attributes are zero-initialised (lines 289-333) — the
coefficients are silently defaulted to 0 (for the dormer this yields
factor 0 rather than the documented 1.0/1.3) and, with
number_of_floors ≥ 1 and an in-table neighbour count, generation
completes without error. An out-of-table neighbour count instead crashes
with an AttributeError (line 277 initialises the non-underscored name, so
`_est_extra_floor_area` is unset at line 385) — also not a descriptive
domain error. -/
theorem out_of_table_silently_defaults
    (a c d l : ℕ) (ha : 3 < a) (hc : 3 < c) (hd : 1 < d) (hl : 1 < l) :
    est_factor_heated_attic a = 0 ∧ est_area_per_floor a = 0 ∧
    est_area_per_roof a = 0 ∧ est_factor_heated_cellar c = 0 ∧
    est_factor_dormer d = 0 ∧ est_facade_to_floor_area l = 0 ∧
    (∀ b : SingleFamilyDwelling, 1 ≤ b.number_of_floors →
      b.neighbour_buildings ≤ 2 → (generate_archetype b).isOk = true) ∧
    (∀ b : SingleFamilyDwelling, 1 ≤ b.number_of_floors →
      2 < b.neighbour_buildings →
      generate_archetype b =
        Except.error "AttributeError: _est_extra_floor_area") := by
  refine ⟨?_, ?_, ?_, ?_, ?_, ?_,
    fun b hb hn => generate_archetype_ok_of_floors b hb hn,
    fun b hb hn => generate_archetype_attribute_error b hb hn⟩
  · unfold est_factor_heated_attic
    rw [if_neg (by omega : ¬a = 0), if_neg (by omega : ¬a = 1),
      if_neg (by omega : ¬a = 2), if_neg (by omega : ¬a = 3)]
  · unfold est_area_per_floor
    rw [if_neg (by omega : ¬a = 0), if_neg (by omega : ¬a = 1),
      if_neg (by omega : ¬a = 2), if_neg (by omega : ¬a = 3)]
  · unfold est_area_per_roof
    rw [if_neg (by omega : ¬a = 0), if_neg (by omega : ¬a = 1),
      if_neg (by omega : ¬a = 2), if_neg (by omega : ¬a = 3)]
  · unfold est_factor_heated_cellar
    rw [if_neg (by omega : ¬c = 0), if_neg (by omega : ¬c = 1),
      if_neg (by omega : ¬c = 2), if_neg (by omega : ¬c = 3)]
  · unfold est_factor_dormer
    rw [if_neg (by omega : ¬d = 0), if_neg (by omega : ¬d = 1)]
  · unfold est_facade_to_floor_area
    rw [if_neg (by omega : ¬l = 0), if_neg (by omega : ¬l = 1)]

/-- C7 (amended) witness: at attic 5 the coefficient silently defaults to
0, the attic-5 configuration generates without error, and the
neighbour-3 configuration raises the AttributeError. -/
theorem out_of_table_silently_defaults_witness :
    est_factor_heated_attic 5 = 0 ∧
    (generate_archetype sfd_attic5).isOk = true ∧
    generate_archetype sfd_nb3 =
      Except.error "AttributeError: _est_extra_floor_area" := by
  obtain ⟨h1, h2, h3, h4, h5, h6, h7, h8⟩ :=
    out_of_table_silently_defaults 5 4 2 2 (by omega) (by omega)
      (by omega) (by omega)
  exact ⟨h1, h7 sfd_attic5 (by decide) (by decide),
    h8 sfd_nb3 (by decide) (by decide)⟩

/-- C9: with the default four orientations, each per-orientation
outer-wall entry equals the total estimated outer-wall area divided by the
orientation count 4, each per-orientation window entry equals the total
estimated window area divided by 4, and each group of four sums back to
its total (the roof and ground-floor entries, keyed -1 and -2, are single
aggregates). -/
theorem orientation_split_spec (b : SingleFamilyDwelling)
    (r : ArchetypeResult) (h : generate_archetype b = Except.ok r) :
    nr_of_orientation = 4 ∧
    r.outer_area =
      [(0, r.est_outer_wall_area / 4), (90, r.est_outer_wall_area / 4),
       (180, r.est_outer_wall_area / 4), (270, r.est_outer_wall_area / 4),
       (-1, r.est_roof_area), (-2, r.est_ground_floor_area)] ∧
    r.window_area =
      [(0, r.est_win_area / 4), (90, r.est_win_area / 4),
       (180, r.est_win_area / 4), (270, r.est_win_area / 4)] ∧
    r.est_outer_wall_area / 4 + r.est_outer_wall_area / 4
        + r.est_outer_wall_area / 4 + r.est_outer_wall_area / 4
      = r.est_outer_wall_area ∧
    r.est_win_area / 4 + r.est_win_area / 4 + r.est_win_area / 4
        + r.est_win_area / 4 = r.est_win_area := by
  obtain ⟨hne, q_fa, hq, rfl⟩ := generate_archetype_ok h
  dsimp only
  refine ⟨rfl, ?_, ?_, by ring, by ring⟩
  · rw [split_areas_outer]
    rfl
  · rw [split_areas_window]

/-- C9 witness: on the reference configuration the four window entries
each carry a quarter of the total window area. -/
theorem orientation_split_spec_witness :
    r_default.window_area =
      [(0, r_default.est_win_area / 4), (90, r_default.est_win_area / 4),
       (180, r_default.est_win_area / 4),
       (270, r_default.est_win_area / 4)] :=
  (orientation_split_spec sfd_default r_default
    generate_sfd_default_eval).2.2.1

end TEASER
